import Mathlib

/-!
Verification of `oncequinox` (`src/oncequinox/_singleton.py`): a metaclass
`SingletonModuleMeta` whose `__call__` enforces at-most-one live instance per
class, backed by the module-level registry
`_singleton_insts : weakref.WeakKeyDictionary[type, object]`.

Shallow embedding. Classes (type keys) and instances (object identities) are
modelled by natural numbers. The registry is an association list with
Python-dict semantics (at most one binding per key; assignment overwrites).
The metaclass `__call__` is embedded as `SingletonModuleMeta.call`, a state
transformer: the state carries the registry together with a private component
`ext` used by the build thunk (`super().__call__`), so that instrumented
builds can count invocations or allocate fresh object identities, and a
re-entrant build can itself mutate the registry, exactly as the Python global
dict allows.

The reference semantics of `weakref.WeakKeyDictionary` is modelled for the
reclamation claims: the dictionary references its KEYS weakly but its VALUES
strongly, and every instance holds a strong reference to its own class.
-/

namespace Oncequinox

/-- Exact runtime class identity (`cls`), the registry key. -/
abbrev Cls := Nat

/-- Object identity of a constructed instance. -/
abbrev Inst := Nat

/-- Positional and keyword arguments of an instantiation call
(`*args, **kwargs` of `SingletonModuleMeta.__call__`). -/
structure Args where
  pos : List Nat
  kw : List (String × Nat)
deriving DecidableEq

/-- The empty argument list, as in `Config()`. -/
def noArgs : Args := ⟨[], []⟩

/-- Registry lookup, `_singleton_insts[cls]` guarded by
`cls in _singleton_insts`: the first (unique) binding for the key. -/
def lookupInst : List (Cls × Inst) → Cls → Option Inst
  | [], _ => none
  | (c, i) :: rest, cls => if c = cls then some i else lookupInst rest cls

/-- Registry assignment `_singleton_insts[cls] = self`: Python dict
semantics, overwriting the binding for `cls` when present. -/
def storeInst : List (Cls × Inst) → Cls → Inst → List (Cls × Inst)
  | [], cls, self => [(cls, self)]
  | (c, i) :: rest, cls, self =>
      if c = cls then (cls, self) :: rest else (c, i) :: storeInst rest cls self

/-- Program state seen by `SingletonModuleMeta.__call__`: the module-level
registry `_singleton_insts`, plus the build thunk's private state `ext`
(invocation counter or fresh-identity allocator, depending on the build). -/
structure St (σ : Type) where
  insts : List (Cls × Inst)
  ext : σ
deriving DecidableEq

/-- Shallow embedding of `SingletonModuleMeta.__call__`:

    def __call__(cls, /, *args, **kwargs):
        if cls in _singleton_insts:
            return _singleton_insts[cls]
        self = super().__call__(*args, **kwargs)
        _singleton_insts[cls] = self
        return self

`build` embeds `super().__call__`: it receives the caller's arguments and the
full state (it may itself touch the registry, as a re-entrant constructor
does), and returns either the new instance or the exception it raised. On an
exception the state at the point of the raise propagates unchanged, exactly
as the Python global dict would. -/
def SingletonModuleMeta.call {σ ε : Type} (cls : Cls) (args : Args)
    (build : Args → St σ → Except ε Inst × St σ) (s : St σ) :
    Except ε Inst × St σ :=
  match lookupInst s.insts cls with
  | some inst => (Except.ok inst, s)
  | none =>
    match build args s with
    | (Except.error e, s2) => (Except.error e, s2)
    | (Except.ok self, s2) => (Except.ok self, ⟨storeInst s2.insts cls self, s2.ext⟩)

/-- A build thunk instrumented with an invocation counter: `ext : Nat` counts
how many times `super().__call__` has run. The underlying construction `f`
maps the caller's arguments to the new instance or an exception; it does not
touch the registry (the ordinary, non-re-entrant constructor). -/
def countingBuild {ε : Type} (f : Args → Except ε Inst) :
    Args → St Nat → Except ε Inst × St Nat :=
  fun a s => (f a, ⟨s.insts, s.ext + 1⟩)

/-- A build thunk that allocates a fresh object identity: `ext : Nat` is the
next unused identity, so successive constructions yield distinct objects,
as `object.__new__` does. -/
def allocBuild {ε : Type} : Args → St Nat → Except ε Inst × St Nat :=
  fun _ s => (Except.ok s.ext, ⟨s.insts, s.ext + 1⟩)

/-- A build thunk whose constructor re-enters construction of the same class
`cls` before returning, as in `def __init__(self): self.other = MyCls()`.
The outer object is allocated first (`object.__new__`), then `__init__`
performs the full inner instantiation through the metaclass, and finally the
outer object is returned to the outer `__call__`. -/
def reentrantBuild {ε : Type} (cls : Cls) (innerArgs : Args) :
    Args → St Nat → Except ε Inst × St Nat :=
  fun _ s =>
    match SingletonModuleMeta.call cls innerArgs allocBuild ⟨s.insts, s.ext + 1⟩ with
    | (Except.error e, s2) => (Except.error e, s2)
    | (Except.ok _, s2) => (Except.ok s.ext, s2)

/-- The keys currently bound in the registry. -/
def keys (l : List (Cls × Inst)) : List Cls := l.map Prod.fst

section RegistryLemmas

theorem lookupInst_storeInst_self (l : List (Cls × Inst)) (c : Cls) (i : Inst) :
    lookupInst (storeInst l c i) c = some i := by
  induction l with
  | nil => simp [storeInst, lookupInst]
  | cons hd tl ih =>
      obtain ⟨c0, i0⟩ := hd
      by_cases h : c0 = c
      · simp [storeInst, lookupInst, h]
      · simp [storeInst, lookupInst, h, ih]

theorem lookupInst_storeInst_ne (l : List (Cls × Inst)) (c c2 : Cls) (i : Inst)
    (h : c ≠ c2) : lookupInst (storeInst l c i) c2 = lookupInst l c2 := by
  induction l with
  | nil => simp [storeInst, lookupInst, h]
  | cons hd tl ih =>
      obtain ⟨c0, i0⟩ := hd
      by_cases h0 : c0 = c
      · subst h0
        simp [storeInst, lookupInst, h]
      · simp [storeInst, lookupInst, h0, ih]

theorem keys_storeInst_of_mem (l : List (Cls × Inst)) (c : Cls) (i : Inst)
    (h : c ∈ keys l) : keys (storeInst l c i) = keys l := by
  induction l with
  | nil => simp [keys] at h
  | cons hd tl ih =>
      obtain ⟨c0, i0⟩ := hd
      by_cases h0 : c0 = c
      · subst h0
        simp [storeInst, keys]
      · simp [keys] at h
        rcases h with h | h
        · exact absurd h.symm h0
        · have := ih (by simpa [keys] using h)
          simp [storeInst, h0, keys] at this ⊢
          exact this

theorem keys_storeInst_of_not_mem (l : List (Cls × Inst)) (c : Cls) (i : Inst)
    (h : c ∉ keys l) : keys (storeInst l c i) = keys l ++ [c] := by
  induction l with
  | nil => simp [storeInst, keys]
  | cons hd tl ih =>
      obtain ⟨c0, i0⟩ := hd
      simp [keys] at h
      push_neg at h
      have h0 : c0 ≠ c := fun hc => h.1 hc.symm
      simp [storeInst, h0, keys] at ih ⊢
      exact ih h.2

theorem keys_storeInst_nodup (l : List (Cls × Inst)) (c : Cls) (i : Inst)
    (h : (keys l).Nodup) : (keys (storeInst l c i)).Nodup := by
  by_cases hm : c ∈ keys l
  · rw [keys_storeInst_of_mem l c i hm]
    exact h
  · rw [keys_storeInst_of_not_mem l c i hm]
    rw [List.nodup_append]
    refine ⟨h, List.nodup_singleton c, ?_⟩
    intro x hx hy
    simp at hy
    subst hy
    exact hm hx

theorem keys_storeInst_subset (l : List (Cls × Inst)) (c : Cls) (i : Inst) :
    keys (storeInst l c i) ⊆ c :: keys l := by
  by_cases hm : c ∈ keys l
  · rw [keys_storeInst_of_mem l c i hm]
    exact List.subset_cons_self _ _
  · rw [keys_storeInst_of_not_mem l c i hm]
    intro x hx
    simp at hx ⊢
    tauto

theorem length_storeInst_le (l : List (Cls × Inst)) (c : Cls) (i : Inst) :
    (storeInst l c i).length ≤ l.length + 1 := by
  induction l with
  | nil => simp [storeInst]
  | cons hd tl ih =>
      obtain ⟨c0, i0⟩ := hd
      by_cases h0 : c0 = c
      · simp [storeInst, h0]
      · simp [storeInst, h0]
        omega

end RegistryLemmas

/-!
Reference-liveness model of `weakref.WeakKeyDictionary`, for the reclamation
claims. The registry references its keys (classes) weakly and its values
(instances) strongly; every instance holds a strong reference to its own
class (`type(obj)`). External roots are the classes held by user code
(`extCls`) and the instances held by user code (`extRefs`); the module-level
dictionary itself is a root. `instCls` maps each instance to its class. -/

/-- A class is strongly reachable: held by user code, or reachable from an
externally held instance, or reachable from an instance the dictionary holds
as a strongly referenced value. -/
def clsIsLive (extCls : List Cls) (extRefs : List Inst) (instCls : Inst → Cls)
    (insts : List (Cls × Inst)) (c : Cls) : Bool :=
  extCls.contains c || extRefs.any (fun i => instCls i == c)
    || insts.any (fun e => instCls e.2 == c)

/-- One garbage-collection pass over the registry: `WeakKeyDictionary`
removes exactly the entries whose KEY (the class) is no longer strongly
reachable. Values are never a removal criterion — the dictionary owns them. -/
def gcStep (extCls : List Cls) (extRefs : List Inst) (instCls : Inst → Cls)
    (insts : List (Cls × Inst)) : List (Cls × Inst) :=
  insts.filter (fun e => clsIsLive extCls extRefs instCls insts e.1)

/-- An instance survives collection: strongly held by user code, or strongly
held as a value of the registry dictionary. -/
def instLive (extRefs : List Inst) (insts : List (Cls × Inst)) (i : Inst) : Bool :=
  extRefs.contains i || insts.any (fun e => e.2 == i)

/-!
Interleaving model of `__call__` for the concurrency claim. Under CPython,
the membership check and the dictionary store are each atomic (single
bytecode-protected dict operations), but the interpreter may switch threads
between them, and `super().__call__` runs arbitrary Python. One thread's
execution of `__call__` on a never-before-seen class therefore decomposes
into three atomic steps: check, build, store-and-return. A schedule is the
order in which two threads take their steps. -/

/-- Progress of one thread through `__call__`: not yet started; past the
membership check having found no entry; holding the instance its build
produced; finished with its return value. -/
inductive TState where
  | start : TState
  | ready : TState
  | built : Inst → TState
  | done : Inst → TState
deriving DecidableEq

/-- One atomic step of a thread running `__call__` on class `cls`, where the
thread's build would produce the fresh instance `mk`. Returns the new thread
state, the new registry, and how many times the build thunk ran in this step
(0 or 1). -/
def stepThread (cls : Cls) (mk : Inst) (insts : List (Cls × Inst)) :
    TState → TState × List (Cls × Inst) × Nat
  | TState.start =>
      match lookupInst insts cls with
      | some i => (TState.done i, insts, 0)
      | none => (TState.ready, insts, 0)
  | TState.ready => (TState.built mk, insts, 1)
  | TState.built self => (TState.done self, storeInst insts cls self, 0)
  | TState.done r => (TState.done r, insts, 0)

/-- Combined state of two threads racing through `__call__`: the shared
registry, each thread's progress, and the total number of build invocations. -/
structure CState where
  insts : List (Cls × Inst)
  t1 : TState
  t2 : TState
  builds : Nat
deriving DecidableEq

/-- Run one scheduled step: `true` steps thread 1 (whose build produces
`mk1`), `false` steps thread 2 (whose build produces `mk2`). -/
def schedStep (cls : Cls) (mk1 mk2 : Inst) (c : CState) (who : Bool) : CState :=
  if who then
    match stepThread cls mk1 c.insts c.t1 with
    | (t, insts, b) => ⟨insts, t, c.t2, c.builds + b⟩
  else
    match stepThread cls mk2 c.insts c.t2 with
    | (t, insts, b) => ⟨insts, c.t1, t, c.builds + b⟩

/-- Run a whole schedule of interleaved steps from a combined state. -/
def runSched (cls : Cls) (mk1 mk2 : Inst) (c : CState) (sched : List Bool) : CState :=
  sched.foldl (schedStep cls mk1 mk2) c

/-- C2: while a previously constructed instance of `cls` is still externally
referenced — a live registry entry `lookupInst s.insts cls = some i` exists —
every construction request returns exactly that instance and leaves the state
untouched, whatever build thunk or arguments are supplied; in particular two
such calls return the identical object `i`. -/
theorem C2_identity_on_live_entry {σ ε : Type} (cls : Cls) (i : Inst)
    (s : St σ) (h : lookupInst s.insts cls = some i)
    (a1 a2 : Args) (b1 b2 : Args → St σ → Except ε Inst × St σ) :
    SingletonModuleMeta.call cls a1 b1 s = (Except.ok i, s) ∧
    SingletonModuleMeta.call cls a2 b2 s = (Except.ok i, s) := by
  constructor <;> simp [SingletonModuleMeta.call, h]

/-- Witness for C2 at class `0` with live instance `7`: two calls, with
different arguments and different would-be constructors, both return `7`. -/
theorem C2_identity_on_live_entry_witness :
    SingletonModuleMeta.call 0 noArgs (@countingBuild Unit (fun _ => Except.ok 9))
        (⟨[(0, 7)], 0⟩ : St Nat) = (Except.ok 7, (⟨[(0, 7)], 0⟩ : St Nat)) ∧
    SingletonModuleMeta.call 0 ⟨[5], []⟩ (@countingBuild Unit (fun _ => Except.ok 11))
        (⟨[(0, 7)], 0⟩ : St Nat) = (Except.ok 7, (⟨[(0, 7)], 0⟩ : St Nat)) :=
  C2_identity_on_live_entry 0 7 ⟨[(0, 7)], 0⟩ rfl noArgs ⟨[5], []⟩ _ _

/-- C3: on a cache hit the build thunk is not invoked (the instrumentation
counter `ext` is unchanged, so the underlying constructor never ran), the
arguments are discarded (any `a2`, `f2` give the same outcome as `a1`, `f1`),
and the original instance is returned with the state unchanged. -/
theorem C3_args_discarded_on_hit {ε : Type} (cls : Cls) (i : Inst) (s : St Nat)
    (h : lookupInst s.insts cls = some i)
    (a1 a2 : Args) (f1 f2 : Args → Except ε Inst) :
    SingletonModuleMeta.call cls a1 (countingBuild f1) s = (Except.ok i, s) ∧
    SingletonModuleMeta.call cls a2 (countingBuild f2) s =
      SingletonModuleMeta.call cls a1 (countingBuild f1) s ∧
    (SingletonModuleMeta.call cls a1 (countingBuild f1) s).2.ext = s.ext := by
  refine ⟨?_, ?_, ?_⟩ <;> simp [SingletonModuleMeta.call, h]

/-- Witness for C3 at class `3` with live instance `10`: a call with
positional argument `99` and a constructor that would produce `55` still
returns `10`, the same as a call with no arguments, and the invocation
counter stays at `4`. -/
theorem C3_args_discarded_on_hit_witness :
    SingletonModuleMeta.call 3 ⟨[99], []⟩ (@countingBuild Unit (fun _ => Except.ok 55))
        (⟨[(3, 10)], 4⟩ : St Nat) = (Except.ok 10, (⟨[(3, 10)], 4⟩ : St Nat)) ∧
    SingletonModuleMeta.call 3 noArgs (@countingBuild Unit (fun _ => Except.ok 56))
        (⟨[(3, 10)], 4⟩ : St Nat) =
      SingletonModuleMeta.call 3 ⟨[99], []⟩ (@countingBuild Unit (fun _ => Except.ok 55))
        (⟨[(3, 10)], 4⟩ : St Nat) ∧
    (SingletonModuleMeta.call 3 ⟨[99], []⟩ (@countingBuild Unit (fun _ => Except.ok 55))
        (⟨[(3, 10)], 4⟩ : St Nat)).2.ext = 4 :=
  C3_args_discarded_on_hit 3 10 ⟨[(3, 10)], 4⟩ rfl ⟨[99], []⟩ noArgs _ _

/-- C4: when the constructor raises, the same exception propagates to the
caller and the registry is exactly as before the call (and the counter shows
one invocation); a later request for the same class with a succeeding
constructor then builds, stores and returns a fresh instance normally. -/
theorem C4_failure_propagates_and_leaves_no_entry {ε : Type} (cls : Cls)
    (a1 a2 : Args) (f1 f2 : Args → Except ε Inst) (e : ε) (i : Inst) (s : St Nat)
    (hmiss : lookupInst s.insts cls = none)
    (herr : f1 a1 = Except.error e) (hok : f2 a2 = Except.ok i) :
    SingletonModuleMeta.call cls a1 (countingBuild f1) s =
      (Except.error e, ⟨s.insts, s.ext + 1⟩) ∧
    SingletonModuleMeta.call cls a2 (countingBuild f2) ⟨s.insts, s.ext + 1⟩ =
      (Except.ok i, ⟨storeInst s.insts cls i, s.ext + 2⟩) := by
  constructor <;> simp [SingletonModuleMeta.call, countingBuild, hmiss, herr, hok]

/-- Witness for C4 at class `2` on the empty registry: the failing first call
returns the error `()` and stores nothing; the retry returns the fresh
instance `8` and stores it under key `2`. -/
theorem C4_failure_propagates_witness :
    SingletonModuleMeta.call 2 noArgs (countingBuild (fun _ => Except.error ()))
        (⟨[], 0⟩ : St Nat) = (Except.error (), (⟨[], 1⟩ : St Nat)) ∧
    SingletonModuleMeta.call 2 noArgs (@countingBuild Unit (fun _ => Except.ok 8))
        (⟨[], 1⟩ : St Nat) = (Except.ok 8, (⟨[(2, 8)], 2⟩ : St Nat)) :=
  C4_failure_propagates_and_leaves_no_entry 2 noArgs noArgs _ _ () 8 ⟨[], 0⟩ rfl rfl rfl

/-- C5: with no live entry for `cls`, a construction request invokes the
build thunk exactly once (counter `ext` goes up by one), stores its result
under the exact key `cls`, and returns that same result; when the build
succeeds the outcome is `Except.ok`, never absent. -/
theorem C5_miss_builds_once_stores_and_returns {ε : Type} (cls : Cls) (a : Args)
    (f : Args → Except ε Inst) (i : Inst) (s : St Nat)
    (hmiss : lookupInst s.insts cls = none) (hok : f a = Except.ok i) :
    SingletonModuleMeta.call cls a (countingBuild f) s =
      (Except.ok i, ⟨storeInst s.insts cls i, s.ext + 1⟩) ∧
    lookupInst (SingletonModuleMeta.call cls a (countingBuild f) s).2.insts cls =
      some i := by
  constructor <;>
    simp [SingletonModuleMeta.call, countingBuild, hmiss, hok, lookupInst_storeInst_self]

/-- Witness for C5 at class `1` on the empty registry: the call builds `42`,
stores it under key `1`, and returns it. -/
theorem C5_miss_builds_once_witness :
    SingletonModuleMeta.call 1 noArgs (@countingBuild Unit (fun _ => Except.ok 42))
        (⟨[], 0⟩ : St Nat) = (Except.ok 42, (⟨[(1, 42)], 1⟩ : St Nat)) ∧
    lookupInst (SingletonModuleMeta.call 1 noArgs
        (@countingBuild Unit (fun _ => Except.ok 42)) (⟨[], 0⟩ : St Nat)).2.insts 1 =
      some 42 :=
  C5_miss_builds_once_stores_and_returns 1 noArgs _ 42 ⟨[], 0⟩ rfl rfl

/-- C6: distinct classes `cls1 ≠ cls2` — a base class and its subclass are
distinct keys — are fully isolated. Constructing `cls1` and then `cls2` with
the fresh-identity allocator builds a fresh instance for `cls2` even though
`cls1` already has an entry (it is not blocked by it and does not receive
`cls1`'s instance), the two instances are distinct objects, and the final
registry holds the two distinct entries under their own keys. -/
theorem C6_per_type_isolation {ε : Type} (cls1 cls2 : Cls) (a1 a2 : Args) (s : St Nat)
    (hne : cls1 ≠ cls2)
    (h1 : lookupInst s.insts cls1 = none) (h2 : lookupInst s.insts cls2 = none) :
    SingletonModuleMeta.call cls1 a1 (@allocBuild ε) s =
      (Except.ok s.ext, ⟨storeInst s.insts cls1 s.ext, s.ext + 1⟩) ∧
    SingletonModuleMeta.call cls2 a2 (@allocBuild ε)
        ⟨storeInst s.insts cls1 s.ext, s.ext + 1⟩ =
      (Except.ok (s.ext + 1),
        ⟨storeInst (storeInst s.insts cls1 s.ext) cls2 (s.ext + 1), s.ext + 2⟩) ∧
    s.ext ≠ s.ext + 1 ∧
    lookupInst (storeInst (storeInst s.insts cls1 s.ext) cls2 (s.ext + 1)) cls1 =
      some s.ext ∧
    lookupInst (storeInst (storeInst s.insts cls1 s.ext) cls2 (s.ext + 1)) cls2 =
      some (s.ext + 1) := by
  have hlk2 : lookupInst (storeInst s.insts cls1 s.ext) cls2 = none := by
    rw [lookupInst_storeInst_ne _ _ _ _ hne]
    exact h2
  refine ⟨?_, ?_, by omega, ?_, ?_⟩
  · simp [SingletonModuleMeta.call, allocBuild, h1]
  · simp [SingletonModuleMeta.call, allocBuild, hlk2]
  · rw [lookupInst_storeInst_ne _ _ _ _ (Ne.symm hne)]
    exact lookupInst_storeInst_self _ _ _
  · exact lookupInst_storeInst_self _ _ _

/-- Witness for C6 with base class `0` and subclass `1` on the empty
registry: the base call returns fresh instance `5`, the subclass call returns
fresh instance `6`, and each key maps to its own instance. -/
theorem C6_per_type_isolation_witness :
    SingletonModuleMeta.call 0 noArgs (@allocBuild Unit) (⟨[], 5⟩ : St Nat) =
      (Except.ok 5, (⟨[(0, 5)], 6⟩ : St Nat)) ∧
    SingletonModuleMeta.call 1 noArgs (@allocBuild Unit) (⟨[(0, 5)], 6⟩ : St Nat) =
      (Except.ok 6, (⟨[(0, 5), (1, 6)], 7⟩ : St Nat)) ∧
    (5 : Nat) ≠ 6 ∧
    lookupInst [(0, 5), (1, 6)] 0 = some 5 ∧
    lookupInst [(0, 5), (1, 6)] 1 = some 6 :=
  C6_per_type_isolation 0 1 noArgs noArgs ⟨[], 5⟩ (by decide) rfl rfl

/-- C8: a construction request (with an ordinary, registry-untouching
constructor) preserves key uniqueness of the registry, introduces at most the
requested key, and grows the registry by at most one entry; a collection pass
also preserves key uniqueness. So the registry always holds at most one entry
per type key and no more entries than distinct classes ever constructed. -/
theorem C8_at_most_one_entry_per_key {ε : Type} (cls : Cls) (a : Args)
    (f : Args → Except ε Inst) (s : St Nat)
    (extCls : List Cls) (extRefs : List Inst) (instCls : Inst → Cls)
    (hnd : (keys s.insts).Nodup) :
    (keys (SingletonModuleMeta.call cls a (countingBuild f) s).2.insts).Nodup ∧
    keys (SingletonModuleMeta.call cls a (countingBuild f) s).2.insts ⊆
      cls :: keys s.insts ∧
    (SingletonModuleMeta.call cls a (countingBuild f) s).2.insts.length ≤
      s.insts.length + 1 ∧
    (keys (gcStep extCls extRefs instCls s.insts)).Nodup := by
  have hgc : (keys (gcStep extCls extRefs instCls s.insts)).Nodup := by
    have hsub : List.Sublist (gcStep extCls extRefs instCls s.insts) s.insts :=
      List.filter_sublist _
    exact List.Nodup.sublist (List.Sublist.map Prod.fst hsub) hnd
  cases hl : lookupInst s.insts cls with
  | some i =>
      refine ⟨?_, ?_, ?_, hgc⟩
      · simp [SingletonModuleMeta.call, hl]
        exact hnd
      · simp [SingletonModuleMeta.call, hl]
      · simp [SingletonModuleMeta.call, hl]
  | none =>
      cases hf : f a with
      | error e =>
          refine ⟨?_, ?_, ?_, hgc⟩
          · simp [SingletonModuleMeta.call, countingBuild, hl, hf]
            exact hnd
          · simp [SingletonModuleMeta.call, countingBuild, hl, hf]
          · simp [SingletonModuleMeta.call, countingBuild, hl, hf]
      | ok i =>
          refine ⟨?_, ?_, ?_, hgc⟩
          · simp [SingletonModuleMeta.call, countingBuild, hl, hf]
            exact keys_storeInst_nodup _ _ _ hnd
          · simp [SingletonModuleMeta.call, countingBuild, hl, hf]
            exact keys_storeInst_subset _ _ _
          · simp [SingletonModuleMeta.call, countingBuild, hl, hf]
            exact length_storeInst_le _ _ _

/-- Witness for C8 at class `4` on a registry holding keys `0` and `1`:
after constructing instance `30` for key `4` the key list `[0, 1, 4]` is
duplicate-free, contained in `4 :: [0, 1]`, the registry grew by one entry,
and a collection pass keeps the key list duplicate-free. -/
theorem C8_at_most_one_entry_per_key_witness :
    (keys (SingletonModuleMeta.call 4 noArgs (@countingBuild Unit (fun _ => Except.ok 30))
        (⟨[(0, 10), (1, 11)], 0⟩ : St Nat)).2.insts).Nodup ∧
    keys (SingletonModuleMeta.call 4 noArgs (@countingBuild Unit (fun _ => Except.ok 30))
        (⟨[(0, 10), (1, 11)], 0⟩ : St Nat)).2.insts ⊆ 4 :: keys [(0, 10), (1, 11)] ∧
    (SingletonModuleMeta.call 4 noArgs (@countingBuild Unit (fun _ => Except.ok 30))
        (⟨[(0, 10), (1, 11)], 0⟩ : St Nat)).2.insts.length ≤
      ([(0, 10), (1, 11)] : List (Cls × Inst)).length + 1 ∧
    (keys (gcStep [0, 1] [] (fun _ => 0) [(0, 10), (1, 11)])).Nodup :=
  C8_at_most_one_entry_per_key 4 noArgs _ ⟨[(0, 10), (1, 11)], 0⟩ [0, 1] []
    (fun _ => 0) (by decide)

/-- C9: a constructor that re-enters construction of its own class raises no
error and meets no deadlock. The inner call, run before the outer store,
finds no entry, builds and stores its own instance `s.ext + 1` and returns
it; the outer call then overwrites that entry with its own instance `s.ext`
and returns it — two distinct instances, the outer one left in the
registry. -/
theorem C9_reentrant_inner_then_outer {ε : Type} (cls : Cls) (oa ia : Args)
    (s : St Nat) (hmiss : lookupInst s.insts cls = none) :
    SingletonModuleMeta.call cls oa (@reentrantBuild ε cls ia) s =
      (Except.ok s.ext,
        ⟨storeInst (storeInst s.insts cls (s.ext + 1)) cls s.ext, s.ext + 2⟩) ∧
    SingletonModuleMeta.call cls ia (@allocBuild ε) ⟨s.insts, s.ext + 1⟩ =
      (Except.ok (s.ext + 1), ⟨storeInst s.insts cls (s.ext + 1), s.ext + 2⟩) ∧
    s.ext + 1 ≠ s.ext ∧
    lookupInst (storeInst (storeInst s.insts cls (s.ext + 1)) cls s.ext) cls =
      some s.ext := by
  refine ⟨?_, ?_, by omega, lookupInst_storeInst_self _ _ _⟩
  · simp [SingletonModuleMeta.call, reentrantBuild, allocBuild, hmiss]
  · simp [SingletonModuleMeta.call, allocBuild, hmiss]

/-- Witness for C9 at class `0` on the empty registry with next identity
`0`: the outer call returns instance `0`, the inner call built and stored
instance `1`, the two are distinct, and the final registry maps class `0` to
the outer instance `0`. -/
theorem C9_reentrant_witness :
    SingletonModuleMeta.call 0 noArgs (@reentrantBuild Unit 0 noArgs)
        (⟨[], 0⟩ : St Nat) = (Except.ok 0, (⟨[(0, 0)], 2⟩ : St Nat)) ∧
    SingletonModuleMeta.call 0 noArgs (@allocBuild Unit) (⟨[], 1⟩ : St Nat) =
      (Except.ok 1, (⟨[(0, 1)], 2⟩ : St Nat)) ∧
    (1 : Nat) ≠ 0 ∧
    lookupInst [(0, 0)] 0 = some 0 :=
  C9_reentrant_inner_then_outer 0 noArgs noArgs ⟨[], 0⟩ rfl

/-- C10: a cache hit mutates nothing at all — the whole state (the registry
bindings of every class and the build-side state, hence also any invocation
counter) is returned unchanged, for an arbitrary build thunk, and the cached
instance is returned. -/
theorem C10_hit_is_pure {σ ε : Type} (cls : Cls) (a : Args) (i : Inst)
    (b : Args → St σ → Except ε Inst × St σ) (s : St σ)
    (h : lookupInst s.insts cls = some i) :
    SingletonModuleMeta.call cls a b s = (Except.ok i, s) := by
  simp [SingletonModuleMeta.call, h]

/-- Witness for C10 at class `1` on a registry holding two entries: the call
returns the cached instance `20` and the exact same state, although the
build thunk would have built instance `77` and bumped the counter. -/
theorem C10_hit_is_pure_witness :
    SingletonModuleMeta.call 1 noArgs (@countingBuild Unit (fun _ => Except.ok 77))
        (⟨[(0, 10), (1, 20)], 3⟩ : St Nat) =
      (Except.ok 20, (⟨[(0, 10), (1, 20)], 3⟩ : St Nat)) :=
  C10_hit_is_pure 1 noArgs 20 _ ⟨[(0, 10), (1, 20)], 3⟩ rfl

/-- C1: evaluation of the reclamation scenario against the
`WeakKeyDictionary` semantics of `_singleton_insts`. Class `0` (still held
by user code, as any caller about to re-construct it must) gets instance `7`
on the first call. After every external strong reference to `7` is dropped, a
collection pass removes nothing — the entry survives even with no external
reference to the class at all, because the dictionary holds `7` strongly as a
value and `7` holds its class strongly — so `7` is never collected while
registered, and the next construction request returns the old instance `7`
(the build counter stays at `1`: no new instance is created). This
contradicts the claimed non-owning registry and reclaim-and-recreate
behaviour, and the code's own docstring, which says instances "are stored
using weak references, allowing them to be garbage collected when no strong
references remain": `WeakKeyDictionary` weakly references keys, not
values. -/
theorem C1_registry_keeps_instance_alive :
    SingletonModuleMeta.call 0 noArgs (@countingBuild Unit (fun _ => Except.ok 7))
        (⟨[], 0⟩ : St Nat) = (Except.ok 7, (⟨[(0, 7)], 1⟩ : St Nat)) ∧
    gcStep [0] [] (fun _ => 0) [(0, 7)] = [(0, 7)] ∧
    gcStep [] [] (fun _ => 0) [(0, 7)] = [(0, 7)] ∧
    instLive [] [(0, 7)] 7 = true ∧
    SingletonModuleMeta.call 0 noArgs (@countingBuild Unit (fun _ => Except.ok 9))
        (⟨[(0, 7)], 1⟩ : St Nat) = (Except.ok 7, (⟨[(0, 7)], 1⟩ : St Nat)) :=
  ⟨rfl, rfl, rfl, rfl, rfl⟩

/-- C7 counterexample: the code takes no lock, so the check and the
populate of `__call__` need not be serialized. In the interleaving where
both threads pass the membership check on the never-before-constructed class
`0` before either stores — schedule: thread 1 checks, thread 2 checks,
thread 1 builds and stores and returns `1`, thread 2 builds and stores and
returns `2` — the build thunk runs twice, not exactly once, and the two
calls return distinct instances. -/
theorem C7_unserialized_race_counterexample :
    (runSched 0 1 2 ⟨[], TState.start, TState.start, 0⟩
        [true, false, true, true, false, false]).builds = 2 ∧
    (runSched 0 1 2 ⟨[], TState.start, TState.start, 0⟩
        [true, false, true, true, false, false]).t1 = TState.done 1 ∧
    (runSched 0 1 2 ⟨[], TState.start, TState.start, 0⟩
        [true, false, true, true, false, false]).t2 = TState.done 2 ∧
    TState.done 1 ≠ TState.done 2 := by
  refine ⟨rfl, rfl, rfl, by decide⟩

/-- C7 amended: only when the two threads' check-build-store sequences do
not interleave does the guarantee hold: thread 1 runs `__call__` on the
never-before-constructed class to completion, then thread 2 runs; the build
thunk is invoked exactly once and both threads return thread 1's instance.
The code itself performs no such serialization. -/
theorem C7_serial_schedule_builds_once (cls : Cls) (mk1 mk2 : Inst) :
    runSched cls mk1 mk2 ⟨[], TState.start, TState.start, 0⟩
        [true, true, true, false] =
      ⟨[(cls, mk1)], TState.done mk1, TState.done mk1, 1⟩ := by
  simp [runSched, schedStep, stepThread, lookupInst, storeInst]

end Oncequinox
